import Mathlib

/-!
Shallow embedding of the flakiness-study analysis core
(scripts/utils/helpers.py, scripts/execution/experiment_runner.py,
scripts/classification/flakiness_classifier.py,
scripts/analysis/data_analyzer.py, scripts/config/study_config.py).

Numeric values that Python represents as floats are modelled exactly:
rationals wherever the source only adds, multiplies, divides and clamps,
and reals where np.std takes a square root.
-/

/-- The record built by parse_test_result in scripts/utils/helpers.py:
one execution of a test configuration. pass_rate is none when parsing
failed or tests_total was 0 (the Python code stores None). -/
structure TrialResult where
  run_number : Nat
  execution_time : ℚ
  pass_rate : Option ℚ
  tests_passed : Nat
  tests_total : Nat
  return_code : Int
  output_file : String := ""
  markers : Option String := none
  seed : Option Int := none
  deriving Repr, DecidableEq

/-- The list comprehension in calculate_flakiness_index:
pass rates of the trials whose pass_rate is not None. -/
def passRates (results : List TrialResult) : List ℚ :=
  results.filterMap (fun r => r.pass_rate)

/-- Embedding of np.mean on a list of floats. np.mean of an empty list is
NaN in numpy; the callers in this repository never reach that case with a
meaningful result, and division by zero yields 0 here. -/
def mean (l : List ℚ) : ℚ :=
  l.sum / l.length

/-- Population variance, the square of np.std: mean of squared deviations
from the mean. -/
def pvariance (l : List ℚ) : ℚ :=
  (l.map (fun x => (x - mean l) ^ 2)).sum / l.length

/-- Embedding of np.std: square root of the population variance. -/
noncomputable def std (l : List ℚ) : ℝ :=
  Real.sqrt (pvariance l)

/-- Embedding of calculate_flakiness_index in scripts/utils/helpers.py
(duplicated verbatim as _calculate_flakiness_index in
scripts/run_comprehensive_study.py). The Python branch tests
std_rate > 0; since np.std is the square root of the variance, that
condition holds exactly when the variance is positive, which is the
decidable test used here (lemma std_pos_iff below proves the
equivalence). The initial check on the results list being empty in the
source is subsumed by the check on the extracted pass-rate list, which is
also empty in that case. -/
noncomputable def calculate_flakiness_index (results : List TrialResult) : ℝ :=
  let pass_rates := passRates results
  if pass_rates = [] then 0
  else
    let mean_rate := mean pass_rates
    let std_rate := std pass_rates
    if mean_rate = 0 then (if 0 < pvariance pass_rates then 1 else 0)
    else std_rate / (mean_rate : ℝ)

/-- Embedding of calculate_effectiveness_score in
scripts/utils/helpers.py (duplicated as _calculate_effectiveness_score in
scripts/run_comprehensive_study.py). -/
def calculate_effectiveness_score (improvement_percent overhead_percent : ℚ) : ℚ :=
  let improvement_weight : ℚ := 0.7
  let overhead_weight : ℚ := 0.3
  let improvement_score := min (improvement_percent / 100) 1
  let overhead_penalty := min (overhead_percent / 100) 1
  max (improvement_score * improvement_weight - overhead_penalty * overhead_weight) 0

/-- Embedding of FlakynessClassifier.classify_severity in
scripts/classification/flakiness_classifier.py. -/
def classify_severity (flakiness_index : ℚ) : String :=
  if flakiness_index < 0.1 then "low"
  else if flakiness_index < 0.3 then "moderate"
  else if flakiness_index < 0.6 then "high"
  else "severe"

/-- Embedding of FlakynessClassifier.classify_predictability in
scripts/classification/flakiness_classifier.py. -/
def classify_predictability (std_pass_rate : ℚ) : String :=
  if std_pass_rate < 0.1 then "highly_predictable"
  else if std_pass_rate < 0.2 then "moderately_predictable"
  else if std_pass_rate < 0.3 then "low_predictability"
  else "unpredictable"

/-- Position of a severity band in the documented low-to-severe order,
used to state monotonicity of classify_severity. -/
def severityRank (band : String) : Nat :=
  if band = "low" then 0
  else if band = "moderate" then 1
  else if band = "high" then 2
  else 3

/-- Position of a predictability band in the documented order, used to
state monotonicity of classify_predictability. -/
def predictabilityRank (band : String) : Nat :=
  if band = "highly_predictable" then 0
  else if band = "moderately_predictable" then 1
  else if band = "low_predictability" then 2
  else 3

/-- The valid_results filter of BaselineRunner.run_experiments and
MitigationRunner.run_experiments in
scripts/execution/experiment_runner.py: trials whose pass_rate is not
None. -/
def validResults (results : List TrialResult) : List TrialResult :=
  results.filter (fun r => r.pass_rate.isSome)

/-- Per-configuration summary statistics, the numeric fields of the
dictionary built by BaselineRunner.run_experiments in
scripts/execution/experiment_runner.py. -/
structure AggregatedStats where
  total_runs : Nat
  valid_runs : Nat
  avg_pass_rate : ℚ
  std_pass_rate : ℝ
  flakiness_index : ℝ

/-- Embedding of the statistics block of BaselineRunner.run_experiments
(scripts/execution/experiment_runner.py, the baseline_data entry): mean
and population standard deviation over the valid trials, 0 when there are
none, and the flakiness index of the valid trials. -/
noncomputable def aggregate (results : List TrialResult) : AggregatedStats :=
  let valid_results := validResults results
  { total_runs := results.length
    valid_runs := valid_results.length
    avg_pass_rate := if valid_results = [] then 0 else mean (passRates valid_results)
    std_pass_rate := if valid_results = [] then 0 else std (passRates valid_results)
    flakiness_index := calculate_flakiness_index valid_results }

/-- The per-strategy entry built by
DataAnalyzer._analyze_mitigation_effectiveness in
scripts/analysis/data_analyzer.py. -/
structure EffectivenessResult where
  improvement_absolute : ℚ
  improvement_relative_percent : ℚ
  time_overhead_percent : ℚ
  absolute_time_increase : ℚ
  cost_effectiveness : ℚ
  effectiveness_score : ℚ
  deriving Repr, DecidableEq

/-- Embedding of the loop body of
DataAnalyzer._analyze_mitigation_effectiveness in
scripts/analysis/data_analyzer.py, as a function of the four numbers it
reads: baseline pass rate, baseline execution time, strategy pass rate,
strategy execution time. -/
def analyze_mitigation_effectiveness (baseline_pass_rate baseline_execution_time
    strategy_pass_rate strategy_execution_time : ℚ) : EffectivenessResult :=
  let improvement_absolute := strategy_pass_rate - baseline_pass_rate
  let improvement_relative :=
    if baseline_pass_rate > 0 then improvement_absolute / baseline_pass_rate * 100 else 0
  let time_overhead :=
    if baseline_execution_time > 0 then
      (strategy_execution_time - baseline_execution_time) / baseline_execution_time * 100
    else 0
  let cost_effectiveness :=
    if time_overhead > 0 then improvement_relative / max time_overhead 1
    else improvement_relative
  { improvement_absolute := improvement_absolute
    improvement_relative_percent := improvement_relative
    time_overhead_percent := time_overhead
    absolute_time_increase := strategy_execution_time - baseline_execution_time
    cost_effectiveness := cost_effectiveness
    effectiveness_score := calculate_effectiveness_score improvement_relative time_overhead }

/-- Embedding of the IMPLEMENTATION_COSTS table of
scripts/config/study_config.py together with the .get default of 5 used
at every lookup site in scripts/analysis/data_analyzer.py. -/
def IMPLEMENTATION_COSTS (strategy : String) : ℚ :=
  if strategy = "retries" then 2
  else if strategy = "mocking" then 6
  else if strategy = "isolation" then 4
  else if strategy = "combined" then 8
  else 5

/-- Embedding of the MAINTENANCE_COSTS table of
scripts/config/study_config.py together with the .get default of 5 used
at every lookup site in scripts/analysis/data_analyzer.py. -/
def MAINTENANCE_COSTS (strategy : String) : ℚ :=
  if strategy = "retries" then 1
  else if strategy = "mocking" then 7
  else if strategy = "isolation" then 3
  else if strategy = "combined" then 9
  else 5

/-- Embedding of generate_strategy_recommendation in
scripts/utils/helpers.py. -/
def generate_strategy_recommendation (_strategy : String) (roi effectiveness : ℚ) : String :=
  if roi > 2 ∧ effectiveness > 0.5 then
    "Highly recommended - excellent ROI and effectiveness"
  else if roi > 1 ∧ effectiveness > 0.3 then
    "Recommended - good balance of cost and benefit"
  else if effectiveness > 0.6 then
    "Consider if effectiveness is priority over cost"
  else if roi > 0.5 then
    "Consider for cost-sensitive environments"
  else
    "Not recommended - poor cost-benefit ratio"

/-- The per-strategy entry built by DataAnalyzer._analyze_cost_benefit
after DataAnalyzer.update_cost_benefit_with_effectiveness has filled in
the effectiveness data (scripts/analysis/data_analyzer.py). -/
structure CostBenefitResult where
  implementation_cost : ℚ
  maintenance_cost : ℚ
  performance_overhead_cost : ℚ
  total_cost : ℚ
  benefit_score : ℚ
  effectiveness_score : ℚ
  roi : ℚ
  recommendation : String
  deriving Repr, DecidableEq

/-- Embedding of the per-strategy cost-benefit computation of
scripts/analysis/data_analyzer.py: the formulas of _analyze_cost_benefit,
re-run with actual improvement and overhead figures by
update_cost_benefit_with_effectiveness (both methods compute the same
total cost, benefit and ROI from the improvement percent and overhead
percent in scope). -/
def evaluate_cost_benefit (strategy_name : String)
    (improvement overhead effectiveness_score : ℚ) : CostBenefitResult :=
  let impl_cost := IMPLEMENTATION_COSTS strategy_name
  let maint_cost := MAINTENANCE_COSTS strategy_name
  let total_cost := impl_cost + maint_cost + overhead / 10
  let benefit := improvement * 10
  let roi := if total_cost > 0 then (benefit - total_cost) / total_cost else 0
  { implementation_cost := impl_cost
    maintenance_cost := maint_cost
    performance_overhead_cost := overhead / 10
    total_cost := total_cost
    benefit_score := benefit
    effectiveness_score := effectiveness_score
    roi := roi
    recommendation := generate_strategy_recommendation strategy_name roi effectiveness_score }

/-- Embedding of the FlakynessProfile dataclass of
scripts/config/study_config.py. The mitigation_effectiveness dict is
modelled as an association list in Python dict insertion order, which
Python 3.7+ preserves during iteration. -/
structure FlakynessProfile where
  test_type : String
  description : String
  failure_mechanism : String
  typical_pass_rate : ℚ
  mitigation_effectiveness : List (String × ℚ)
  deriving Repr, DecidableEq

/-- Embedding of FlakynessClassifier.get_flakiness_profiles in
scripts/classification/flakiness_classifier.py, in dict insertion
order. -/
def get_flakiness_profiles : List (String × FlakynessProfile) :=
  [("randomness",
    { test_type := "randomness"
      description := "Tests dependent on random values or probabilistic outcomes"
      failure_mechanism := "Non-deterministic assertions based on random values"
      typical_pass_rate := 0.5
      mitigation_effectiveness :=
        [("retries", 0.3), ("mocking", 0.9), ("isolation", 0.1), ("combined", 0.9)] }),
   ("timeout",
    { test_type := "timeout"
      description := "Tests sensitive to timing and performance variations"
      failure_mechanism := "Time-dependent assertions failing under load or slow systems"
      typical_pass_rate := 0.7
      mitigation_effectiveness :=
        [("retries", 0.6), ("mocking", 0.4), ("isolation", 0.8), ("combined", 0.8)] }),
   ("order",
    { test_type := "order"
      description := "Tests dependent on execution order or global state"
      failure_mechanism := "Shared state between tests causing order dependencies"
      typical_pass_rate := 0.6
      mitigation_effectiveness :=
        [("retries", 0.2), ("mocking", 0.5), ("isolation", 0.9), ("combined", 0.9)] }),
   ("external",
    { test_type := "external"
      description := "Tests dependent on external systems (APIs, databases, network)"
      failure_mechanism := "Network failures, service unavailability, or slow responses"
      typical_pass_rate := 0.7
      mitigation_effectiveness :=
        [("retries", 0.7), ("mocking", 0.95), ("isolation", 0.3), ("combined", 0.95)] }),
   ("race",
    { test_type := "race"
      description := "Tests with race conditions and concurrency issues"
      failure_mechanism := "Thread synchronization issues and timing-dependent failures"
      typical_pass_rate := 0.8
      mitigation_effectiveness :=
        [("retries", 0.4), ("mocking", 0.6), ("isolation", 0.9), ("combined", 0.9)] })]

/-- Embedding of the Python builtin max over dict items with a value key,
as used in DataAnalyzer._generate_recommendations: scan in iteration
order, keep the current maximum, replace it only on a strictly greater
value, so the first key attaining the maximum wins. none on an empty
map, where Python max would raise. -/
def maxStep (acc : Option (String × ℚ)) (p : String × ℚ) : Option (String × ℚ) :=
  match acc with
  | none => some p
  | some q => if p.2 > q.2 then some p else some q

def max_by_value (effectiveness : List (String × ℚ)) : Option (String × ℚ) :=
  effectiveness.foldl maxStep none

/-- The best_strategy selection of DataAnalyzer._generate_recommendations
in scripts/analysis/data_analyzer.py: key of the first entry attaining
the maximum expected effectiveness. -/
def best_strategy (effectiveness : List (String × ℚ)) : Option String :=
  (max_by_value effectiveness).map Prod.fst

/-- The by_flakiness_type primary_recommendation entry of
DataAnalyzer._generate_recommendations in
scripts/analysis/data_analyzer.py for one archetype: the best strategy
of the mitigation_effectiveness map of its profile, none for an archetype
without a profile. -/
def primary_recommendation (flaky_type : String) : Option String :=
  match get_flakiness_profiles.lookup flaky_type with
  | some profile => best_strategy profile.mitigation_effectiveness
  | none => none

/-- Embedding of the notes table of
FlakynessClassifier.get_implementation_notes in
scripts/classification/flakiness_classifier.py. -/
def implementation_notes_table : List ((String × String) × String) :=
  [(("randomness", "mocking"), "Mock random number generators with fixed values"),
   (("randomness", "retries"), "Multiple attempts may eventually succeed due to randomness"),
   (("timeout", "isolation"), "Run tests in isolated processes to reduce resource contention"),
   (("timeout", "retries"), "Retry failed tests as timing issues may be transient"),
   (("order", "isolation"), "Essential for preventing state sharing between tests"),
   (("order", "mocking"), "Mock shared resources to prevent state conflicts"),
   (("external", "mocking"), "Mock all external API calls and services"),
   (("external", "retries"), "Retry on network failures or service unavailability"),
   (("race", "isolation"), "Run tests in separate processes to eliminate race conditions"),
   (("race", "mocking"), "Mock concurrent operations to ensure deterministic behavior")]

/-- Embedding of FlakynessClassifier.get_implementation_notes in
scripts/classification/flakiness_classifier.py: dict lookup with the
templated fallback of the source f-string. -/
def get_implementation_notes (flaky_type strategy : String) : String :=
  match implementation_notes_table.lookup (flaky_type, strategy) with
  | some note => note
  | none => "Apply " ++ strategy ++ " strategy for " ++ flaky_type ++ " tests"

/-- Python truthiness of an optional int, the guard of the line
if seed: in parse_test_result — None and 0 are both falsy. -/
def truthyInt (seed : Option Int) : Bool :=
  match seed with
  | none => false
  | some s => s ≠ 0

/-- Python truthiness of an optional string, the guard of the line
if markers: in parse_test_result — None and the empty string are both
falsy. -/
def truthyStr (markers : Option String) : Bool :=
  match markers with
  | none => false
  | some m => m ≠ ""

/-- Embedding of parse_test_result in scripts/utils/helpers.py. File
access and JSON decoding are external effects; their outcome enters as
output_data: some (passed, total) when the output file exists and parses
(the passed and total fields of its summary block, with the source
defaults 0 and 1 for absent keys already applied), none when the file is
missing or unparsable. The optional markers and seed arguments are kept
in the result only when truthy, exactly as the source guards them. -/
def parse_test_result (output_data : Option (Nat × Nat)) (output_file : String)
    (run_number : Nat) (execution_time : ℚ) (return_code : Int)
    (markers : Option String) (seed : Option Int) : TrialResult :=
  match output_data with
  | some (passed, total) =>
    { run_number := run_number
      execution_time := execution_time
      pass_rate := if 0 < total then some ((passed : ℚ) / (total : ℚ)) else none
      tests_passed := passed
      tests_total := total
      return_code := return_code
      output_file := output_file
      markers := if truthyStr markers then markers else none
      seed := if truthyInt seed then seed else none }
  | none =>
    { run_number := run_number
      execution_time := execution_time
      pass_rate := none
      tests_passed := 0
      tests_total := 0
      return_code := return_code
      output_file := output_file
      markers := if truthyStr markers then markers else none
      seed := if truthyInt seed then seed else none }

/-- A finite sum of non-negative rationals vanishes exactly when every
summand vanishes. -/
lemma sum_eq_zero_iff_of_nonneg (l : List ℚ) (h : ∀ x ∈ l, 0 ≤ x) :
    l.sum = 0 ↔ ∀ x ∈ l, x = 0 := by
  induction l with
  | nil => simp
  | cons a t ih =>
    have ha : 0 ≤ a := h a (List.mem_cons_self a t)
    have ht : ∀ x ∈ t, 0 ≤ x := fun x hx => h x (List.mem_cons_of_mem a hx)
    have hts : 0 ≤ t.sum := List.sum_nonneg ht
    constructor
    · intro h0
      have hsum : a + t.sum = 0 := by simpa using h0
      have ha0 : a = 0 := le_antisymm (by linarith) ha
      have hts0 : t.sum = 0 := by linarith
      intro x hx
      rcases List.mem_cons.mp hx with rfl | hx
      · exact ha0
      · exact (ih ht).mp hts0 x hx
    · intro hall
      have : ∀ x ∈ a :: t, x = (0 : ℚ) := hall
      simp [List.sum_cons, hall a (List.mem_cons_self a t),
        (ih ht).mpr (fun x hx => hall x (List.mem_cons_of_mem a hx))]

/-- Mean of a list of non-negative rationals is non-negative. -/
lemma mean_nonneg (l : List ℚ) (h : ∀ x ∈ l, 0 ≤ x) : 0 ≤ mean l :=
  div_nonneg (List.sum_nonneg h) (Nat.cast_nonneg l.length)

/-- Non-negative entries with mean zero are all zero. -/
lemma eq_zero_of_mean_eq_zero (l : List ℚ) (h : ∀ x ∈ l, 0 ≤ x)
    (hm : mean l = 0) : ∀ x ∈ l, x = 0 := by
  rcases List.eq_nil_or_concat l with rfl | _
  · simp
  · have hlen : (0 : ℚ) < l.length := by
      have : l ≠ [] := by rintro rfl; simp_all
      exact_mod_cast Nat.pos_of_ne_zero (by simpa [List.length_eq_zero] using this)
    have hsum : l.sum = 0 := by
      have := hm
      unfold mean at this
      field_simp at this
      simpa using this
    exact (sum_eq_zero_iff_of_nonneg l h).mp hsum

/-- Population variance is non-negative. -/
lemma pvariance_nonneg (l : List ℚ) : 0 ≤ pvariance l := by
  unfold pvariance
  apply div_nonneg _ (Nat.cast_nonneg l.length)
  apply List.sum_nonneg
  intro x hx
  rcases List.mem_map.mp hx with ⟨y, _, rfl⟩
  positivity

/-- For a non-empty list the population variance vanishes exactly when
every entry equals the mean. -/
lemma pvariance_eq_zero_iff (l : List ℚ) (h : l ≠ []) :
    pvariance l = 0 ↔ ∀ x ∈ l, x = mean l := by
  have hlen : (0 : ℚ) < l.length := by
    exact_mod_cast Nat.pos_of_ne_zero (by simpa [List.length_eq_zero] using h)
  have hnonneg : ∀ y ∈ l.map (fun x => (x - mean l) ^ 2), 0 ≤ y := by
    intro y hy
    rcases List.mem_map.mp hy with ⟨x, _, rfl⟩
    positivity
  constructor
  · intro h0
    have hsum : (l.map (fun x => (x - mean l) ^ 2)).sum = 0 := by
      unfold pvariance at h0
      rcases div_eq_zero_iff.mp h0 with h1 | h1
      · exact h1
      · exact absurd h1 (by positivity)
    have hall := (sum_eq_zero_iff_of_nonneg _ hnonneg).mp hsum
    intro x hx
    have hx2 : (x - mean l) ^ 2 = 0 :=
      hall _ (List.mem_map.mpr ⟨x, hx, rfl⟩)
    have := pow_eq_zero_iff (n := 2) (by norm_num) |>.mp hx2
    linarith [this]
  · intro hall
    unfold pvariance
    have hsum : (l.map (fun x => (x - mean l) ^ 2)).sum = 0 := by
      apply (sum_eq_zero_iff_of_nonneg _ hnonneg).mpr
      intro y hy
      rcases List.mem_map.mp hy with ⟨x, hx, rfl⟩
      simp [hall x hx]
    simp [hsum]

/-- Mean of a non-empty constant list is that constant. -/
lemma mean_of_constant (l : List ℚ) (a : ℚ) (h : l ≠ [])
    (hall : ∀ x ∈ l, x = a) : mean l = a := by
  have hlen : (0 : ℚ) < l.length := by
    exact_mod_cast Nat.pos_of_ne_zero (by simpa [List.length_eq_zero] using h)
  have hsum : l.sum = l.length • a := List.sum_eq_card_nsmul l a hall
  unfold mean
  rw [hsum]
  rw [nsmul_eq_mul]
  field_simp

/-- The np.std embedding is positive exactly when the variance is
positive: the decidable branch condition used in
calculate_flakiness_index matches the std_rate > 0 test of the
source. -/
lemma std_pos_iff (l : List ℚ) : 0 < std l ↔ 0 < pvariance l := by
  unfold std
  rw [Real.sqrt_pos]
  exact_mod_cast Iff.rfl

/-- The np.std embedding vanishes exactly when the variance does. -/
lemma std_eq_zero_iff (l : List ℚ) : std l = 0 ↔ pvariance l = 0 := by
  unfold std
  rw [Real.sqrt_eq_zero (by exact_mod_cast pvariance_nonneg l)]
  exact_mod_cast Iff.rfl

/-- The np.std embedding is non-negative. -/
lemma std_nonneg (l : List ℚ) : 0 ≤ std l := Real.sqrt_nonneg _

/-- Every entry of a non-empty list equals the mean exactly when all
entries are pairwise equal. -/
lemma forall_eq_mean_iff_pairwise_eq (l : List ℚ) (h : l ≠ []) :
    (∀ x ∈ l, x = mean l) ↔ ∀ x ∈ l, ∀ y ∈ l, x = y := by
  constructor
  · intro hall x hx y hy
    rw [hall x hx, hall y hy]
  · intro hpair
    rcases List.exists_mem_of_ne_nil l h with ⟨a, ha⟩
    have hconst : ∀ x ∈ l, x = a := fun x hx => hpair x hx a ha
    have hmean : mean l = a := mean_of_constant l a h hconst
    intro x hx
    rw [hconst x hx, hmean]

/-- C1. calculate_flakiness_index is the coefficient of variation of the
defined pass rates: it is 0 when no trial has a defined pass rate, 1 when
the mean pass rate is exactly 0 while the standard deviation is positive,
and std divided by mean otherwise; consequently over a non-empty
collection of valid (hence non-negative) pass rates the index is
non-negative and vanishes exactly when all valid pass rates are
equal. -/
theorem flakiness_index_coefficient_of_variation (results : List TrialResult) :
    (passRates results = [] → calculate_flakiness_index results = 0)
    ∧ (mean (passRates results) = 0 → 0 < std (passRates results) →
        calculate_flakiness_index results = 1)
    ∧ (mean (passRates results) ≠ 0 →
        calculate_flakiness_index results =
          std (passRates results) / ((mean (passRates results) : ℚ) : ℝ))
    ∧ (passRates results ≠ [] → (∀ x ∈ passRates results, 0 ≤ x) →
        0 ≤ calculate_flakiness_index results ∧
        (calculate_flakiness_index results = 0 ↔
          ∀ x ∈ passRates results, ∀ y ∈ passRates results, x = y)) := by
  refine ⟨?_, ?_, ?_, ?_⟩
  · intro h
    simp [calculate_flakiness_index, h]
  · intro hm hs
    have hvar : 0 < pvariance (passRates results) := (std_pos_iff _).mp hs
    have hne : passRates results ≠ [] := by
      intro h0
      rw [h0] at hvar
      simp [pvariance, mean] at hvar
    simp [calculate_flakiness_index, hne, hm, hvar]
  · intro hm
    have hne : passRates results ≠ [] := by
      intro h0
      rw [h0] at hm
      simp [mean] at hm
    simp [calculate_flakiness_index, hne, hm]
  · intro hne hpos
    by_cases hm : mean (passRates results) = 0
    · have hz : ∀ x ∈ passRates results, x = 0 :=
        eq_zero_of_mean_eq_zero _ hpos hm
      have hvar : pvariance (passRates results) = 0 := by
        apply (pvariance_eq_zero_iff _ hne).mpr
        intro x hx
        rw [hz x hx, hm]
      have hidx : calculate_flakiness_index results = 0 := by
        simp [calculate_flakiness_index, hne, hm, hvar]
      refine ⟨by rw [hidx], ?_⟩
      rw [hidx]
      constructor
      · intro _ x hx y hy
        rw [hz x hx, hz y hy]
      · intro _
        rfl
    · have hmpos : 0 < mean (passRates results) :=
        lt_of_le_of_ne (mean_nonneg _ hpos) (Ne.symm hm)
      have hidx : calculate_flakiness_index results =
          std (passRates results) / ((mean (passRates results) : ℚ) : ℝ) := by
        simp [calculate_flakiness_index, hne, hm]
      have hmr : (0 : ℝ) < ((mean (passRates results) : ℚ) : ℝ) := by
        exact_mod_cast hmpos
      constructor
      · rw [hidx]
        exact div_nonneg (std_nonneg _) (le_of_lt hmr)
      · rw [hidx]
        rw [div_eq_zero_iff]
        constructor
        · intro h
          rcases h with h | h
          · have hv0 : pvariance (passRates results) = 0 := (std_eq_zero_iff _).mp h
            exact (forall_eq_mean_iff_pairwise_eq _ hne).mp
              ((pvariance_eq_zero_iff _ hne).mp hv0)
          · exact absurd h (ne_of_gt hmr)
        · intro hpair
          left
          apply (std_eq_zero_iff _).mpr
          apply (pvariance_eq_zero_iff _ hne).mpr
          exact (forall_eq_mean_iff_pairwise_eq _ hne).mpr hpair

/-- A concrete trial record with a given optional pass rate, used to
instantiate theorems on concrete inputs. -/
def sampleTrial (rate : Option ℚ) : TrialResult :=
  { run_number := 1
    execution_time := 1
    pass_rate := rate
    tests_passed := 1
    tests_total := 2
    return_code := 0 }

/-- Witness for C1: on two trials with pass rates -1 and 1 the mean is 0
and the standard deviation positive, so the index is 1; on two trials
with equal pass rates one half the index is non-negative and vanishes,
all pass rates being equal. -/
theorem flakiness_index_coefficient_of_variation_witness :
    calculate_flakiness_index [sampleTrial (some (-1)), sampleTrial (some 1)] = 1 ∧
    (0 ≤ calculate_flakiness_index [sampleTrial (some (1/2)), sampleTrial (some (1/2))] ∧
      (calculate_flakiness_index [sampleTrial (some (1/2)), sampleTrial (some (1/2))] = 0 ↔
        ∀ x ∈ passRates [sampleTrial (some (1/2)), sampleTrial (some (1/2))],
          ∀ y ∈ passRates [sampleTrial (some (1/2)), sampleTrial (some (1/2))], x = y)) := by
  have hprA : passRates [sampleTrial (some (-1)), sampleTrial (some 1)] = [(-1 : ℚ), 1] := rfl
  constructor
  · refine (flakiness_index_coefficient_of_variation _).2.1 ?_ ?_
    · rw [hprA]
      norm_num [mean]
    · rw [hprA]
      have hv : pvariance [(-1 : ℚ), 1] = 1 := by
        norm_num [pvariance, mean]
      unfold std
      rw [hv]
      simp
  · refine (flakiness_index_coefficient_of_variation _).2.2.2 ?_ ?_
    · simp [passRates, sampleTrial]
    · intro x hx
      simp [passRates, sampleTrial] at hx
      rw [hx]
      norm_num

/-- C2 counterexample: with improvement percent 100 and overhead percent
-200 the effectiveness score is 13/10, strictly above 1, so the score
does not always lie in the unit interval when the overhead percent is
negative. -/
theorem effectiveness_score_exceeds_one_cex :
    1 < calculate_effectiveness_score 100 (-200) := by
  norm_num [calculate_effectiveness_score]

/-- C2 (amended). The effectiveness score equals 0.7 times the clamped
normalized improvement percent minus 0.3 times the clamped normalized
overhead percent, floored at 0, so it is never negative; it is bounded by
1 whenever the overhead percent is non-negative (with negative overhead
the clamp only bounds the penalty term from above, and the score can
exceed 1). -/
theorem effectiveness_score_weighted_formula (improvement_percent overhead_percent : ℚ) :
    calculate_effectiveness_score improvement_percent overhead_percent =
      max (0.7 * min (improvement_percent / 100) 1
        - 0.3 * min (overhead_percent / 100) 1) 0
    ∧ 0 ≤ calculate_effectiveness_score improvement_percent overhead_percent
    ∧ (0 ≤ overhead_percent →
        calculate_effectiveness_score improvement_percent overhead_percent ≤ 1) := by
  unfold calculate_effectiveness_score
  refine ⟨?_, ?_, ?_⟩
  · ring_nf
  · exact le_max_right _ _
  · intro ho
    apply max_le _ (by norm_num)
    have ha : min (improvement_percent / 100) 1 ≤ 1 := min_le_right _ _
    have hb : (0 : ℚ) ≤ min (overhead_percent / 100) 1 :=
      le_min (by positivity) (by norm_num)
    linarith

/-- Witness for C2: at improvement percent 60 and overhead percent 20
the score is between 0 and 1. -/
theorem effectiveness_score_weighted_formula_witness :
    0 ≤ calculate_effectiveness_score 60 20 ∧ calculate_effectiveness_score 60 20 ≤ 1 :=
  ⟨(effectiveness_score_weighted_formula 60 20).2.1,
   (effectiveness_score_weighted_formula 60 20).2.2 (by norm_num)⟩

/-- C3. When no trial has a defined pass rate, aggregation yields average
pass rate 0, standard deviation 0 and flakiness index 0, and being a
total function it raises nothing. -/
theorem aggregate_zero_valid_trials (results : List TrialResult)
    (h : validResults results = []) :
    (aggregate results).avg_pass_rate = 0
    ∧ (aggregate results).std_pass_rate = 0
    ∧ (aggregate results).flakiness_index = 0 := by
  refine ⟨?_, ?_, ?_⟩
  · simp [aggregate, h]
  · simp [aggregate, h]
  · simp [aggregate, h, calculate_flakiness_index, passRates]

/-- Witness for C3: a single trial whose pass rate is undefined gives the
all-zero aggregate. -/
theorem aggregate_zero_valid_trials_witness :
    (aggregate [sampleTrial none]).avg_pass_rate = 0
    ∧ (aggregate [sampleTrial none]).std_pass_rate = 0
    ∧ (aggregate [sampleTrial none]).flakiness_index = 0 :=
  aggregate_zero_valid_trials [sampleTrial none] (by simp [validResults, sampleTrial])

/-- C4. classify_severity maps every non-negative input to exactly one of
the four severity bands and classify_predictability to exactly one of the
four predictability bands, both through the fixed threshold ladders of
the source, and both mappings are monotone non-decreasing with respect to
the documented band order. -/
theorem classify_thresholds_partition_monotone (x y : ℚ) (_hx : 0 ≤ x) (_hy : 0 ≤ y) :
    classify_severity x ∈ ["low", "moderate", "high", "severe"]
    ∧ classify_predictability x ∈
        ["highly_predictable", "moderately_predictable", "low_predictability",
         "unpredictable"]
    ∧ (x ≤ y → severityRank (classify_severity x) ≤ severityRank (classify_severity y))
    ∧ (x ≤ y → predictabilityRank (classify_predictability x)
        ≤ predictabilityRank (classify_predictability y)) := by
  refine ⟨?_, ?_, ?_, ?_⟩
  · unfold classify_severity
    split_ifs <;> simp
  · unfold classify_predictability
    split_ifs <;> simp
  · intro hxy
    unfold classify_severity
    split_ifs <;> simp [severityRank] <;> linarith
  · intro hxy
    unfold classify_predictability
    split_ifs <;> simp [predictabilityRank] <;> linarith

/-- Witness for C4: severity at 0 is a band, the band order from 0 to one
half is non-decreasing, and likewise for predictability. -/
theorem classify_thresholds_partition_monotone_witness :
    classify_severity 0 ∈ ["low", "moderate", "high", "severe"]
    ∧ severityRank (classify_severity 0) ≤ severityRank (classify_severity (1/2))
    ∧ predictabilityRank (classify_predictability 0)
        ≤ predictabilityRank (classify_predictability (1/2)) :=
  ⟨(classify_thresholds_partition_monotone 0 (1/2) (by norm_num) (by norm_num)).1,
   (classify_thresholds_partition_monotone 0 (1/2) (by norm_num) (by norm_num)).2.2.1
     (by norm_num),
   (classify_thresholds_partition_monotone 0 (1/2) (by norm_num) (by norm_num)).2.2.2
     (by norm_num)⟩

/-- C5. With a zero baseline average pass rate the relative improvement
percent is defined as 0, and with a zero baseline average execution time
the time overhead percent is defined as 0; the scorer is a total
function, so neither degenerate baseline raises. -/
theorem degenerate_baseline_defined_as_zero
    (baseline_pass_rate baseline_execution_time strategy_pass_rate
      strategy_execution_time : ℚ) :
    (baseline_pass_rate = 0 →
      (analyze_mitigation_effectiveness baseline_pass_rate baseline_execution_time
        strategy_pass_rate strategy_execution_time).improvement_relative_percent = 0)
    ∧ (baseline_execution_time = 0 →
      (analyze_mitigation_effectiveness baseline_pass_rate baseline_execution_time
        strategy_pass_rate strategy_execution_time).time_overhead_percent = 0) := by
  constructor
  · intro h
    simp [analyze_mitigation_effectiveness, h]
  · intro h
    simp [analyze_mitigation_effectiveness, h]

/-- Witness for C5: an all-zero baseline yields zero relative improvement
and zero overhead. -/
theorem degenerate_baseline_defined_as_zero_witness :
    (analyze_mitigation_effectiveness 0 0 1 1).improvement_relative_percent = 0
    ∧ (analyze_mitigation_effectiveness 0 0 1 1).time_overhead_percent = 0 :=
  ⟨(degenerate_baseline_defined_as_zero 0 0 1 1).1 rfl,
   (degenerate_baseline_defined_as_zero 0 0 1 1).2 rfl⟩

/-- C6. For each of the four known strategies, cost-benefit evaluation at
zero relative improvement and zero overhead yields benefit score 0, total
cost equal to implementation cost plus maintenance cost, and ROI exactly
-1, the tabulated costs all being positive. -/
theorem known_strategy_zero_improvement_roi (strategy : String)
    (h : strategy ∈ ["retries", "mocking", "isolation", "combined"])
    (effectiveness : ℚ) :
    (evaluate_cost_benefit strategy 0 0 effectiveness).benefit_score = 0
    ∧ (evaluate_cost_benefit strategy 0 0 effectiveness).total_cost
        = IMPLEMENTATION_COSTS strategy + MAINTENANCE_COSTS strategy
    ∧ (evaluate_cost_benefit strategy 0 0 effectiveness).roi = -1 := by
  simp only [List.mem_cons, List.mem_singleton, List.not_mem_nil, or_false] at h
  rcases h with rfl | rfl | rfl | rfl
  all_goals simp [evaluate_cost_benefit, IMPLEMENTATION_COSTS, MAINTENANCE_COSTS]
  all_goals norm_num

/-- Witness for C6: the retries strategy at zero improvement and zero
overhead has total cost 3 and ROI -1. -/
theorem known_strategy_zero_improvement_roi_witness :
    (evaluate_cost_benefit "retries" 0 0 0).benefit_score = 0
    ∧ (evaluate_cost_benefit "retries" 0 0 0).total_cost
        = IMPLEMENTATION_COSTS "retries" + MAINTENANCE_COSTS "retries"
    ∧ (evaluate_cost_benefit "retries" 0 0 0).roi = -1 :=
  known_strategy_zero_improvement_roi "retries" (by simp) 0

/-- C7. A strategy name outside the known set falls back to the neutral
default implementation and maintenance costs 5 and 5; evaluation is a
total function, so it raises nothing. -/
theorem unknown_strategy_neutral_default_costs (strategy : String)
    (h : strategy ∉ ["retries", "mocking", "isolation", "combined"])
    (improvement overhead effectiveness : ℚ) :
    IMPLEMENTATION_COSTS strategy = 5
    ∧ MAINTENANCE_COSTS strategy = 5
    ∧ (evaluate_cost_benefit strategy improvement overhead
        effectiveness).implementation_cost = 5
    ∧ (evaluate_cost_benefit strategy improvement overhead
        effectiveness).maintenance_cost = 5 := by
  simp only [List.mem_cons, List.mem_singleton, List.not_mem_nil, or_false,
    not_or] at h
  obtain ⟨h1, h2, h3, h4⟩ := h
  refine ⟨?_, ?_, ?_, ?_⟩ <;>
    simp [evaluate_cost_benefit, IMPLEMENTATION_COSTS, MAINTENANCE_COSTS,
      h1, h2, h3, h4]

/-- Witness for C7: the unknown name custom_strategy gets costs 5 and
5. -/
theorem unknown_strategy_neutral_default_costs_witness :
    IMPLEMENTATION_COSTS "custom_strategy" = 5
    ∧ MAINTENANCE_COSTS "custom_strategy" = 5
    ∧ (evaluate_cost_benefit "custom_strategy" 0 0 0).implementation_cost = 5
    ∧ (evaluate_cost_benefit "custom_strategy" 0 0 0).maintenance_cost = 5 :=
  unknown_strategy_neutral_default_costs "custom_strategy" (by simp) 0 0 0

/-- Folding maxStep from a running maximum q over a list yields some
result r that is either q itself, with every value in the list at most
the value of q, or the first entry of the list whose value strictly
exceeds the value of q as well as every value before it, with every value
after it at most the value of r. -/
lemma foldl_maxStep_first (t : List (String × ℚ)) : ∀ q : String × ℚ,
    ∃ r, t.foldl maxStep (some q) = some r ∧
      ((r = q ∧ ∀ p ∈ t, p.2 ≤ q.2) ∨
        (∃ t₁ t₂, t = t₁ ++ r :: t₂ ∧ q.2 < r.2 ∧ (∀ p ∈ t₁, p.2 < r.2)
          ∧ (∀ p ∈ t₂, p.2 ≤ r.2))) := by
  induction t with
  | nil =>
    intro q
    exact ⟨q, rfl, Or.inl ⟨rfl, by simp⟩⟩
  | cons a t ih =>
    intro q
    by_cases ha : a.2 > q.2
    · obtain ⟨r, hr, hcase⟩ := ih a
      refine ⟨r, ?_, Or.inr ?_⟩
      · simpa [maxStep, ha] using hr
      · rcases hcase with ⟨rfl, hall⟩ | ⟨t₁, t₂, rfl, hqr, hpre, hsuf⟩
        · exact ⟨[], t, by simp, ha, by simp, hall⟩
        · refine ⟨a :: t₁, t₂, by simp, lt_trans ha hqr, ?_, hsuf⟩
          intro p hp
          rcases List.mem_cons.mp hp with rfl | hp
          · exact hqr
          · exact hpre p hp
    · obtain ⟨r, hr, hcase⟩ := ih q
      refine ⟨r, ?_, ?_⟩
      · simpa [maxStep, ha] using hr
      · rcases hcase with ⟨rfl, hall⟩ | ⟨t₁, t₂, rfl, hqr, hpre, hsuf⟩
        · refine Or.inl ⟨rfl, ?_⟩
          intro p hp
          rcases List.mem_cons.mp hp with rfl | hp
          · exact le_of_not_lt ha
          · exact hall p hp
        · refine Or.inr ⟨a :: t₁, t₂, by simp, hqr, ?_, hsuf⟩
          intro p hp
          rcases List.mem_cons.mp hp with rfl | hp
          · exact lt_of_le_of_lt (le_of_not_lt ha) hqr
          · exact hpre p hp

/-- The entry selected by max_by_value attains the maximum value of the
map and is its first occurrence: every entry before it is strictly
smaller and every entry after it is no larger. -/
lemma max_by_value_first_max (l : List (String × ℚ)) (p : String × ℚ)
    (h : max_by_value l = some p) :
    ∃ l₁ l₂, l = l₁ ++ p :: l₂ ∧ (∀ q ∈ l₁, q.2 < p.2) ∧ (∀ q ∈ l₂, q.2 ≤ p.2) := by
  match l with
  | [] => simp [max_by_value] at h
  | a :: t =>
    have h2 : t.foldl maxStep (some a) = some p := by
      simpa [max_by_value, maxStep] using h
    obtain ⟨r, hr, hcase⟩ := foldl_maxStep_first t a
    rw [hr] at h2
    obtain rfl : r = p := Option.some_injective _ h2
    rcases hcase with ⟨rfl, hall⟩ | ⟨t₁, t₂, rfl, hqr, hpre, hsuf⟩
    · exact ⟨[], t, by simp, by simp, hall⟩
    · refine ⟨a :: t₁, t₂, by simp, ?_, hsuf⟩
      intro q hq
      rcases List.mem_cons.mp hq with rfl | hq
      · exact hqr
      · exact hpre q hq

/-- C8. The per-archetype primary recommendation selects, from the
mitigation_effectiveness map of the profile, a strategy attaining the
maximum expected effectiveness, with every entry earlier in the stored
canonical order strictly smaller and every later entry no larger, so the
first occurrence wins ties deterministically; on the five shipped
profiles this yields mocking for randomness, isolation for timeout,
isolation for order, mocking for external and isolation for race. -/
theorem primary_recommendation_max_first_occurrence :
    (∀ (effectiveness : List (String × ℚ)) (s : String),
        best_strategy effectiveness = some s →
        ∃ v l₁ l₂, effectiveness = l₁ ++ (s, v) :: l₂
          ∧ (∀ q ∈ l₁, q.2 < v) ∧ (∀ q ∈ l₂, q.2 ≤ v))
    ∧ primary_recommendation "randomness" = some "mocking"
    ∧ primary_recommendation "timeout" = some "isolation"
    ∧ primary_recommendation "order" = some "isolation"
    ∧ primary_recommendation "external" = some "mocking"
    ∧ primary_recommendation "race" = some "isolation" := by
  refine ⟨?_, ?_, ?_, ?_, ?_, ?_⟩
  · intro effectiveness s h
    unfold best_strategy at h
    rcases Option.map_eq_some'.mp h with ⟨p, hp, hfst⟩
    obtain ⟨s', v⟩ := p
    cases hfst
    obtain ⟨l₁, l₂, hsplit, hpre, hsuf⟩ := max_by_value_first_max _ _ hp
    exact ⟨v, l₁, l₂, hsplit, hpre, hsuf⟩
  all_goals simp [primary_recommendation, get_flakiness_profiles,
    best_strategy, max_by_value, maxStep, List.lookup]
  all_goals norm_num

/-- Witness for C8: on the randomness effectiveness map the selection of
mocking splits the map into a strictly smaller front, the mocking entry
at value 0.9 and a no-larger tail. -/
theorem primary_recommendation_max_first_occurrence_witness :
    ∃ v l₁ l₂,
      ([("retries", (0.3 : ℚ)), ("mocking", 0.9), ("isolation", 0.1), ("combined", 0.9)]
        = l₁ ++ ("mocking", v) :: l₂)
      ∧ (∀ q ∈ l₁, q.2 < v) ∧ (∀ q ∈ l₂, q.2 ≤ v) :=
  (primary_recommendation_max_first_occurrence).1
    [("retries", (0.3 : ℚ)), ("mocking", 0.9), ("isolation", 0.1), ("combined", 0.9)]
    "mocking"
    (by norm_num [best_strategy, max_by_value, maxStep])

/-- C9 counterexample: the pair of archetype stable and strategy retries
is not in the notes table, and the fallback the code produces is the
string Apply retries strategy for stable tests, not the template Apply
retries for stable stated by the claim. -/
theorem implementation_notes_fallback_template_cex :
    implementation_notes_table.lookup ("stable", "retries") = none
    ∧ get_implementation_notes "stable" "retries"
        = "Apply retries strategy for stable tests"
    ∧ get_implementation_notes "stable" "retries" ≠ "Apply retries for stable" := by
  refine ⟨?_, ?_, ?_⟩ <;> decide

/-- C9 (amended). Every pair present in the implementation-notes table is
answered with that pair's specific note, and every pair not in the table
is answered, without failing, by the templated fallback string Apply
<strategy> strategy for <archetype> tests. -/
theorem get_implementation_notes_spec :
    (∀ pair ∈ implementation_notes_table,
        get_implementation_notes pair.1.1 pair.1.2 = pair.2)
    ∧ (∀ flaky_type strategy : String,
        implementation_notes_table.lookup (flaky_type, strategy) = none →
        get_implementation_notes flaky_type strategy
          = "Apply " ++ strategy ++ " strategy for " ++ flaky_type ++ " tests") := by
  constructor
  · intro pair hp
    fin_cases hp <;> rfl
  · intro flaky_type strategy h
    simp [get_implementation_notes, h]

/-- Witness for C9: the tabulated randomness and mocking pair returns its
specific note, and the untabulated stable and retries pair returns the
templated fallback. -/
theorem get_implementation_notes_spec_witness :
    get_implementation_notes "randomness" "mocking"
      = "Mock random number generators with fixed values"
    ∧ get_implementation_notes "stable" "retries"
      = "Apply " ++ "retries" ++ " strategy for " ++ "stable" ++ " tests" :=
  ⟨get_implementation_notes_spec.1
      (("randomness", "mocking"), "Mock random number generators with fixed values")
      (by simp [implementation_notes_table]),
   get_implementation_notes_spec.2 "stable" "retries" (by decide)⟩

/-- C10. parse_test_result with seed 0 returns a record with no seed held
at all, identical to the record returned with no seed supplied, because
the Python truthiness guard treats 0 like None; with any nonzero seed the
record holds that seed verbatim. -/
theorem parse_test_result_seed_truthiness (output_data : Option (Nat × Nat))
    (output_file : String) (run_number : Nat) (execution_time : ℚ)
    (return_code : Int) (markers : Option String) :
    parse_test_result output_data output_file run_number execution_time
        return_code markers (some 0)
      = parse_test_result output_data output_file run_number execution_time
        return_code markers none
    ∧ (parse_test_result output_data output_file run_number execution_time
        return_code markers (some 0)).seed = none
    ∧ ∀ s : Int, s ≠ 0 →
        (parse_test_result output_data output_file run_number execution_time
          return_code markers (some s)).seed = some s := by
  refine ⟨?_, ?_, ?_⟩
  · cases output_data with
    | none => simp [parse_test_result, truthyInt]
    | some p =>
      obtain ⟨passed, total⟩ := p
      simp [parse_test_result, truthyInt]
  · cases output_data with
    | none => simp [parse_test_result, truthyInt]
    | some p =>
      obtain ⟨passed, total⟩ := p
      simp [parse_test_result, truthyInt]
  · intro s hs
    cases output_data with
    | none => simp [parse_test_result, truthyInt, hs]
    | some p =>
      obtain ⟨passed, total⟩ := p
      simp [parse_test_result, truthyInt, hs]

/-- Witness for C10: with a parsed summary of 1 passed out of 2, seed 0
gives the same record as no seed, and seed 42 is kept verbatim. -/
theorem parse_test_result_seed_truthiness_witness :
    parse_test_result (some (1, 2)) "out.json" 1 1 0 none (some 0)
      = parse_test_result (some (1, 2)) "out.json" 1 1 0 none none
    ∧ (parse_test_result (some (1, 2)) "out.json" 1 1 0 none (some 42)).seed = some 42 :=
  ⟨(parse_test_result_seed_truthiness (some (1, 2)) "out.json" 1 1 0 none).1,
   (parse_test_result_seed_truthiness (some (1, 2)) "out.json" 1 1 0 none).2.2 42
     (by norm_num)⟩
